import Mathlib

set_option maxRecDepth 10000

/-!
Shallow embedding of the repository `fu4303/portfolio-amanhimself`.

The repository holds two artifacts:
* `src/helpers/config.js` — a JavaScript module defining a constant object
  `config` of string-valued fields, a named constant object `SavedTweets`,
  and exporting exactly `config` (default export) and `SavedTweets`.
* `content/posts/redux-with-react-native-hooks.md` — one markdown article
  whose YAML front-matter carries the metadata keys
  title, date, slug, thumbnail, template, tags.

Both JavaScript objects consist only of string literals, so they are embedded
as association lists from key names to string values, in source order.
The front-matter is embedded as an association list from key names to a
small value type (scalar string or list of strings), in source order.
-/

namespace Portfolio

/-- The `config` object of `src/helpers/config.js`, verbatim: each entry is
a (key, string literal) pair in the order the source writes them. -/
def config : List (String × String) :=
  [ ("siteTitle", "Aman Mittal"),
    ("siteUrl", "https://amanhimself.dev"),
    ("description", "Software engineer and technical content writer."),
    ("username", "Alec Campbell"),
    ("shortname", "@fu4303"),
    ("newsletter", "https://amanhimself.substack.com/"),
    ("github", "https://github.com/fu4303"),
    ("twitter", "https://twitter.com/fu4303"),
    ("medium", "https://medium.com/@amanhimself"),
    ("devto", "https://dev.to/fu4303"),
    ("hashnode", "https://hashnode.com/@fu4303"),
    ("instagram", "https://www.instagram.com/amanhimselfcodes/"),
    ("hundredDaysOfCodeBot", "https://twitter.com/_100Daysofcode"),
    ("mailAddress", "mailto:amanmittal.work@gmail.com"),
    ("kofi", "https://ko-fi.com/amanhimself"),
    ("twitterBotRepo", "https://github.com/freeCodeCamp/100DaysOfCode-twitter-bot"),
    ("goodreads", "https://www.goodreads.com/author/show/17657541.Aman_Mittal"),
    ("subscribersCount", "1200+") ]

/-- The `SavedTweets` object of `src/helpers/config.js`, verbatim. -/
def SavedTweets : List (String × String) :=
  [ ("twoMillionViews",
     "https://twitter.com/amanhimself/status/1285554115464982528"),
    ("topContributorFreeCodeCamp2018",
     "https://www.freecodecamp.org/news/announcing-our-freecodecamp-2018-top-contributor-award-winners-861da08a77e1/") ]

/-- Look a key up in a JavaScript-object embedding (first binding wins,
mirroring object literal key resolution). -/
def jsGet (k : String) (obj : List (String × String)) : Option String :=
  match obj with
  | [] => none
  | (k', v) :: rest => if k' = k then some v else jsGet k rest

/-- `s` starts with `p`, computed on the underlying character lists so that
proofs can evaluate it on concrete strings. -/
def strStartsWith (s p : String) : Bool :=
  List.isPrefixOf p.data s.data

/-- `sub` occurs as a contiguous run inside `l`. -/
def hasSublist (sub : List Char) : List Char → Bool
  | [] => sub.isEmpty
  | c :: t => List.isPrefixOf sub (c :: t) || hasSublist sub t

/-- `s` contains `sub` as a contiguous substring. -/
def strContains (s sub : String) : Bool :=
  hasSublist sub.data s.data

/-- Scan for the first `"://"` separator: the characters before it form the
scheme, which must be non-empty and alphabetic, and the remainder after it
must be non-empty. -/
def urlAux (scheme : List Char) : List Char → Bool
  | ':' :: '/' :: '/' :: rest =>
      !scheme.isEmpty && scheme.all Char.isAlpha && !rest.isEmpty
  | c :: t => urlAux (scheme ++ [c]) t
  | [] => false

/-- A string is syntactically a URL when it is `scheme ++ "://" ++ rest` with
a non-empty alphabetic scheme and a non-empty rest. -/
def isUrlSyntax (s : String) : Bool :=
  urlAux [] s.data

/-- Parse a string as an unsigned decimal number: succeeds exactly when the
string is non-empty and all characters are decimal digits. -/
def strToNat? (s : String) : Option Nat :=
  if !s.data.isEmpty && s.data.all Char.isDigit then
    some (s.data.foldl (fun a c => a * 10 + (c.toNat - 48)) 0)
  else
    none

/-- The two exports of the module `src/helpers/config.js`:
`export default config` and `export const SavedTweets`. -/
inductive ModuleExport where
  | defaultExport
  | savedTweets
deriving DecidableEq

/-- Reading an export of `src/helpers/config.js`.  The module body only
defines object literals, so reading is a total pure function from export
name to value: no side effects, no failure case. -/
def readExport : ModuleExport → List (String × String)
  | ModuleExport.defaultExport => config
  | ModuleExport.savedTweets => SavedTweets

/-- One load of the module `src/helpers/config.js`.  The module body has no
statements besides the two constant definitions and the exports, so a load
depends on nothing and produces the pair of exported values. -/
def loadModule : Unit → List (String × String) × List (String × String) :=
  fun _ => (config, SavedTweets)

/-- A YAML front-matter value as used by the content documents: a scalar
(string, date and bare identifiers are all stored as their source text) or
a list of strings. -/
inductive FMValue where
  | scalar : String → FMValue
  | strList : List String → FMValue
deriving DecidableEq

/-- Front-matter of `content/posts/redux-with-react-native-hooks.md`,
verbatim from the file header, in source order. -/
def reduxPostFrontMatter : List (String × FMValue) :=
  [ ("title", FMValue.scalar "Using Redux with React Hooks in a React Native app"),
    ("date", FMValue.scalar "2020-01-27"),
    ("slug", FMValue.scalar "blog/redux-with-react-native-hooks"),
    ("thumbnail", FMValue.scalar "../thumbnails/expo.png"),
    ("template", FMValue.scalar "post"),
    ("tags", FMValue.strList ["expo", "redux", "react-native"]) ]

/-- All content documents of the repository, each represented by its
front-matter.  `content/posts/` holds exactly one markdown file. -/
def contentDocs : List (List (String × FMValue)) :=
  [reduxPostFrontMatter]

/-- Look a key up in a front-matter association list. -/
def fmGet (k : String) : List (String × FMValue) → Option FMValue
  | [] => none
  | (k', v) :: rest => if k' = k then some v else fmGet k rest

/-- The `tags` entry of a document exists and is a list of strings. -/
def tagsIsStrList (doc : List (String × FMValue)) : Bool :=
  match fmGet "tags" doc with
  | some (FMValue.strList _) => true
  | _ => false

/-- The slug of a document, when its `slug` entry is a scalar. -/
def slugOf (doc : List (String × FMValue)) : Option String :=
  match fmGet "slug" doc with
  | some (FMValue.scalar s) => some s
  | _ => none

/-- The configuration keys the specification documents. -/
def documentedKeys : List String :=
  [ "siteTitle", "siteUrl", "description", "username", "shortname",
    "github", "twitter", "medium", "devto", "hashnode", "instagram",
    "goodreads", "mailAddress", "newsletter", "kofi", "twitterBotRepo",
    "hundredDaysOfCodeBot", "subscribersCount" ]

/-- The link-valued configuration keys other than `mailAddress`. -/
def linkKeys : List String :=
  [ "siteUrl", "newsletter", "github", "twitter", "medium", "devto",
    "hashnode", "instagram", "hundredDaysOfCodeBot", "kofi",
    "twitterBotRepo", "goodreads" ]

/-- Front-matter keys every content document must carry. -/
def requiredFMKeys : List String :=
  ["title", "date", "slug", "thumbnail", "template", "tags"]

/-- Configuration fields whose value embeds the handle `fu4303`. -/
def fuHandleKeys : List String :=
  ["shortname", "github", "twitter", "devto", "hashnode"]

/-- Configuration fields whose value embeds the handle `amanhimself`. -/
def amanHandleKeys : List String :=
  ["medium", "newsletter", "kofi"]

end Portfolio

namespace Portfolio

/-- C1: loading the configuration module yields `siteTitle` equal to
`'Aman Mittal'`, `github` equal to a string starting with
`'https://github.com/'`, and `SavedTweets` containing exactly the two
entries `twoMillionViews` and `topContributorFreeCodeCamp2018` with their
literal URL values as written in the source. -/
theorem claim_C1_config_load_scenario :
    jsGet "siteTitle" config = some "Aman Mittal" ∧
    (∃ g, jsGet "github" config = some g ∧ strStartsWith g "https://github.com/" = true) ∧
    SavedTweets =
      [ ("twoMillionViews",
         "https://twitter.com/amanhimself/status/1285554115464982528"),
        ("topContributorFreeCodeCamp2018",
         "https://www.freecodecamp.org/news/announcing-our-freecodecamp-2018-top-contributor-award-winners-861da08a77e1/") ] :=
  ⟨by decide, ⟨"https://github.com/fu4303", by decide, by decide⟩, by decide⟩

/-- C2: every documented configuration key is present in `config`, and its
associated value is a non-empty string. -/
theorem claim_C2_documented_keys_nonempty :
    ∀ k ∈ documentedKeys, jsGet k config ≠ none ∧ jsGet k config ≠ some "" := by
  decide

/-- Witness for C2 at the concrete key `siteTitle`. -/
theorem claim_C2_documented_keys_nonempty_witness :
    "siteTitle" ∈ documentedKeys ∧
    jsGet "siteTitle" config ≠ none ∧ jsGet "siteTitle" config ≠ some "" :=
  ⟨by decide, claim_C2_documented_keys_nonempty "siteTitle" (by decide)⟩

/-- C3: the keys of `SavedTweets` are pairwise distinct, and every value in
it is a syntactically valid URL string. -/
theorem claim_C3_saved_tweets_shape :
    (SavedTweets.map Prod.fst).Nodup ∧
    ∀ p ∈ SavedTweets, isUrlSyntax p.2 = true := by
  decide

/-- Witness for C3 at the concrete entry `twoMillionViews`. -/
theorem claim_C3_saved_tweets_shape_witness :
    ("twoMillionViews",
     "https://twitter.com/amanhimself/status/1285554115464982528") ∈ SavedTweets ∧
    isUrlSyntax "https://twitter.com/amanhimself/status/1285554115464982528" = true :=
  ⟨by decide,
   claim_C3_saved_tweets_shape.2
     ("twoMillionViews",
      "https://twitter.com/amanhimself/status/1285554115464982528")
     (by decide)⟩

/-- C4: every content document's front-matter contains all of the required
keys `title`, `date`, `slug`, `thumbnail`, `template` and `tags`, with
`tags` a list of strings, and every document has a string slug with slug
values unique across documents. -/
theorem claim_C4_front_matter_complete :
    (∀ doc ∈ contentDocs,
      (∀ k ∈ requiredFMKeys, fmGet k doc ≠ none) ∧ tagsIsStrList doc = true) ∧
    (contentDocs.filterMap slugOf).Nodup ∧
    (contentDocs.filterMap slugOf).length = contentDocs.length := by
  decide

/-- Witness for C4 at the one concrete document and the key `title`. -/
theorem claim_C4_front_matter_complete_witness :
    reduxPostFrontMatter ∈ contentDocs ∧ "title" ∈ requiredFMKeys ∧
    fmGet "title" reduxPostFrontMatter ≠ none :=
  ⟨by decide, by decide,
   (claim_C4_front_matter_complete.1 reduxPostFrontMatter (by decide)).1
     "title" (by decide)⟩

/-- C5: the `subscribersCount` field of the configuration is the free-text
string `'1200+'`, which does not parse as a decimal number. -/
theorem claim_C5_subscribers_count_free_text :
    jsGet "subscribersCount" config = some "1200+" ∧
    strToNat? ((jsGet "subscribersCount" config).getD "") = none := by
  decide

/-- C6: loading the configuration module is a constant operation: any two
loads within one process produce identical values, and the embedding offers
no operation that changes a field of `config` or of `SavedTweets` after
definition. -/
theorem claim_C6_single_immutable_value :
    ∀ (u v : Unit), loadModule u = loadModule v :=
  fun _ _ => rfl

/-- C7: the module's external interface is exactly two exports — the
default export holding the whole configuration object and the named export
`SavedTweets` — and reading an export is a total pure function with no
failure case; the two exported values are distinct, so neither read
collapses into the other. -/
theorem claim_C7_exactly_two_exports :
    (∀ e : ModuleExport,
      e = ModuleExport.defaultExport ∨ e = ModuleExport.savedTweets) ∧
    readExport ModuleExport.defaultExport = config ∧
    readExport ModuleExport.savedTweets = SavedTweets ∧
    readExport ModuleExport.defaultExport ≠ readExport ModuleExport.savedTweets :=
  ⟨fun e => by cases e
               case defaultExport => exact Or.inl rfl
               case savedTweets => exact Or.inr rfl,
   rfl, rfl, by decide⟩

/-- C8: every link-valued configuration field starts with `'https://'`,
`mailAddress` starts with `'mailto:'`, and `mailAddress` is the only field
whose value starts with `'mailto:'`. -/
theorem claim_C8_link_schemes :
    (∀ k ∈ linkKeys, strStartsWith ((jsGet k config).getD "") "https://" = true) ∧
    strStartsWith ((jsGet "mailAddress" config).getD "") "mailto:" = true ∧
    (∀ p ∈ config, strStartsWith p.2 "mailto:" = true → p.1 = "mailAddress") := by
  decide

/-- Witness for C8 at the concrete key `github`. -/
theorem claim_C8_link_schemes_witness :
    "github" ∈ linkKeys ∧
    strStartsWith ((jsGet "github" config).getD "") "https://" = true :=
  ⟨by decide, claim_C8_link_schemes.1 "github" (by decide)⟩

/-- C9: the identity fields are mutually inconsistent: `username` is
`'Alec Campbell'` while `siteTitle` is `'Aman Mittal'`, and the handle
`fu4303` embedded in `shortname`, `github`, `twitter`, `devto` and
`hashnode` differs from the handle `amanhimself` embedded in `medium`,
`newsletter` and `kofi` — each group of fields contains its own handle and
not the other. -/
theorem claim_C9_identity_inconsistent :
    jsGet "username" config = some "Alec Campbell" ∧
    jsGet "siteTitle" config = some "Aman Mittal" ∧
    jsGet "username" config ≠ jsGet "siteTitle" config ∧
    (∀ k ∈ fuHandleKeys,
      strContains ((jsGet k config).getD "") "fu4303" = true ∧
      strContains ((jsGet k config).getD "") "amanhimself" = false) ∧
    (∀ k ∈ amanHandleKeys,
      strContains ((jsGet k config).getD "") "amanhimself" = true ∧
      strContains ((jsGet k config).getD "") "fu4303" = false) := by
  decide

/-- Witness for C9 at the concrete keys `github` and `medium`. -/
theorem claim_C9_identity_inconsistent_witness :
    "github" ∈ fuHandleKeys ∧ "medium" ∈ amanHandleKeys ∧
    strContains ((jsGet "github" config).getD "") "fu4303" = true ∧
    strContains ((jsGet "medium" config).getD "") "amanhimself" = true :=
  ⟨by decide, by decide,
   (claim_C9_identity_inconsistent.2.2.2.1 "github" (by decide)).1,
   (claim_C9_identity_inconsistent.2.2.2.2 "medium" (by decide)).1⟩

/-- C10: of the two `SavedTweets` entries, `twoMillionViews` starts with
`'https://twitter.com/'` while `topContributorFreeCodeCamp2018` does not —
it is a freecodecamp.org article URL. -/
theorem claim_C10_only_one_actual_tweet :
    strStartsWith ((jsGet "twoMillionViews" SavedTweets).getD "")
      "https://twitter.com/" = true ∧
    strStartsWith ((jsGet "topContributorFreeCodeCamp2018" SavedTweets).getD "")
      "https://twitter.com/" = false ∧
    strStartsWith ((jsGet "topContributorFreeCodeCamp2018" SavedTweets).getD "")
      "https://www.freecodecamp.org/" = true := by
  decide

end Portfolio
